import Mathlib

/-!
Verification of `booking_scraper_refactor.py` against its design
specification.  The scraper's functions are shallowly embedded: the page
driver and document-query capabilities are abstracted into environment
records (which elements are present, what text they carry, whether a
wait times out, whether a "next page" control is enabled), and each
Python function becomes a total Lean function over such an environment.
-/

/-- One review as extracted by `parse_visible_reviews` (lines 335-353):
a dict with keys title / date / negative feedback / positive feedback,
each defaulting to the empty string when the sub-element is missing. -/
structure Review where
  title : String
  date : String
  negative_feedback : String
  positive_feedback : String
  deriving Repr, DecidableEq

/-- Environment seen by `scrape_reviews_from_modal` (lines 306-412).
`openOk`: the "Leer todas las reseñas" trigger became clickable within
the bounded wait and the click succeeded.  `modalOk`: the modal
container appeared within the bounded wait.  `pages p`: the review
cards parsed from the fully scrolled modal while the modal shows page
`p`.  `nextOk p`: on page `p` the "Página siguiente" control is found,
enabled, and the click succeeds (lines 369-387 return True exactly in
that case; a missing button, a disabled button, or any interaction
error all return False). -/
structure ModalEnv where
  openOk : Bool
  modalOk : Bool
  pages : Nat → List Review
  nextOk : Nat → Bool

/-- State of the pagination loop of `scrape_reviews_from_modal`
(lines 389-403), extended with a trace: `reviews` and `collected`
are the accumulator and the dedup title set of the source; `cur` is
the page the modal currently displays; `extracted` records the pages
whose cards were parsed; `visited` records every page the modal
displayed (the start page plus each page reached by a successful
next-click); `advances` counts successful next-clicks. -/
structure PagState where
  reviews : List Review
  collected : List String
  cur : Nat
  extracted : List Nat
  visited : List Nat
  advances : Nat
  deriving Repr

/-- Lines 396-399: admit one parsed review into the accumulator only
when its title is not already in the collected-title set. -/
def admitReview (st : List Review × List String) (r : Review) :
    List Review × List String :=
  if r.title ∈ st.2 then st else (st.1 ++ [r], st.2 ++ [r.title])

/-- The inner `for review in current_page_reviews` loop. -/
def admitAll (st : List Review × List String) (rs : List Review) :
    List Review × List String :=
  rs.foldl admitReview st

/-- One iteration of the page loop: scroll, parse the visible reviews
of the current page, admit them, then attempt to advance.  Returns the
new state and whether `click_next_page` reported success. -/
def pagStep (env : ModalEnv) (st : PagState) : PagState × Bool :=
  let p := admitAll (st.reviews, st.collected) (env.pages st.cur)
  let st1 : PagState :=
    { st with reviews := p.1, collected := p.2,
              extracted := st.extracted ++ [st.cur] }
  if env.nextOk st.cur then
    ({ st1 with cur := st1.cur + 1, visited := st1.visited ++ [st1.cur + 1],
                advances := st1.advances + 1 }, true)
  else
    (st1, false)

/-- The `for page in range(1, max_pages + 1)` loop (lines 391-403):
the remaining range length is the fuel; a failed advance breaks out. -/
def pagLoop (env : ModalEnv) : Nat → PagState → PagState
  | 0, st => st
  | fuel + 1, st =>
    match pagStep env st with
    | (st', true) => pagLoop env fuel st'
    | (st', false) => st'

/-- Initial state: empty accumulator and title set, modal on page 1. -/
def initPagState : PagState :=
  { reviews := [], collected := [], cur := 1, extracted := [],
    visited := [1], advances := 0 }

/-- `scrape_reviews_from_modal` (lines 306-412).  If the trigger click
or the modal wait fails the function returns the empty accumulator
(lines 319-333); otherwise it runs the page loop.  The final
best-effort close click (lines 406-410) does not touch the data. -/
def scrape_reviews_from_modal (env : ModalEnv) (max_pages : Nat) : PagState :=
  if env.openOk && env.modalOk then pagLoop env max_pages initPagState
  else initPagState

/-- `scroll_modal_completely` (lines 355-367): up to 15 attempts; each
attempt `i` reads the modal scroll height (`H (2*i)`), scrolls, sleeps,
re-reads it (`H (2*i+1)`), and breaks when the new height equals the
previous attempt's height (initially the impossible -1, modelled as
`none`) or this attempt's first reading.  Returns the number of
attempts executed. -/
def scrollModalAttempts (H : Nat → Nat) : Nat → Option Nat → Nat → Nat
  | 0, _, _ => 0
  | fuel + 1, last, i =>
    let current := H (2 * i)
    let nh := H (2 * i + 1)
    if nh = current ∨ some nh = last then 1
    else 1 + scrollModalAttempts H fuel (some nh) (i + 1)

-- Invariant machinery for the dedup property.

/-- The collected-title set is exactly the list of titles of the
accumulated reviews, and it has no duplicates. -/
def DedupInv (p : List Review × List String) : Prop :=
  p.2 = p.1.map Review.title ∧ p.2.Nodup

theorem admitReview_inv (p : List Review × List String) (r : Review)
    (h : DedupInv p) : DedupInv (admitReview p r) := by
  obtain ⟨heq, hnd⟩ := h
  unfold admitReview
  by_cases hm : r.title ∈ p.2
  · rw [if_pos hm]; exact ⟨heq, hnd⟩
  · rw [if_neg hm]
    refine ⟨by simp [heq], ?_⟩
    simp only [List.nodup_append, List.nodup_cons, List.not_mem_nil,
      not_false_iff, List.nodup_nil, and_true, List.disjoint_singleton]
    exact ⟨hnd, by simpa using hm⟩

theorem admitAll_inv (rs : List Review) (p : List Review × List String)
    (h : DedupInv p) : DedupInv (admitAll p rs) := by
  induction rs generalizing p with
  | nil => exact h
  | cons r rs ih =>
    simpa [admitAll, List.foldl_cons] using ih _ (admitReview_inv p r h)

/-- The dedup invariant on a pagination state. -/
def StInv (st : PagState) : Prop := DedupInv (st.reviews, st.collected)

theorem pagStep_inv (env : ModalEnv) (st : PagState) (h : StInv st) :
    StInv (pagStep env st).1 := by
  unfold pagStep
  by_cases hn : env.nextOk st.cur <;>
    simp only [hn, if_true, if_false, StInv] <;>
    exact admitAll_inv _ _ h

theorem pagLoop_inv (env : ModalEnv) (fuel : Nat) (st : PagState)
    (h : StInv st) : StInv (pagLoop env fuel st) := by
  induction fuel generalizing st with
  | zero => exact h
  | succ n ih =>
    unfold pagLoop
    cases hps : pagStep env st with
    | mk st' b =>
      have hstep := pagStep_inv env st h
      rw [hps] at hstep
      cases b
      · simp only [hps]; exact hstep
      · simp only [hps]; exact ih st' hstep

/-- Claim C1: in every run of the Review Paginator, over every sequence
of pages the site presents, the returned review list contains no two
entries with an equal title: a review is admitted only when its title
is not already among the titles collected in that run. -/
theorem c1_dedup_invariant (env : ModalEnv) (max_pages : Nat) :
    ((scrape_reviews_from_modal env max_pages).reviews.map Review.title).Nodup := by
  have hinit : StInv initPagState := by
    constructor <;> simp [initPagState]
  unfold scrape_reviews_from_modal
  by_cases h : env.openOk && env.modalOk
  · have := pagLoop_inv env max_pages initPagState hinit
    obtain ⟨heq, hnd⟩ := this
    simpa [h, ← heq] using hnd
  · obtain ⟨heq, hnd⟩ := hinit
    simpa [h, ← heq] using hnd

-- Bounds for the pagination loop and the inner modal scroll loop.

theorem pagStep_snd (env : ModalEnv) (st : PagState) :
    (pagStep env st).2 = env.nextOk st.cur := by
  unfold pagStep
  by_cases hn : env.nextOk st.cur <;> simp [hn]

theorem pagStep_extracted (env : ModalEnv) (st : PagState) :
    (pagStep env st).1.extracted = st.extracted ++ [st.cur] := by
  unfold pagStep
  by_cases hn : env.nextOk st.cur <;> simp [hn]

theorem pagStep_advances (env : ModalEnv) (st : PagState) :
    (pagStep env st).1.advances =
      (if env.nextOk st.cur then st.advances + 1 else st.advances) := by
  unfold pagStep
  by_cases hn : env.nextOk st.cur <;> simp [hn]

theorem pagLoop_succ (env : ModalEnv) (n : Nat) (st : PagState) :
    pagLoop env (n + 1) st =
      (if env.nextOk st.cur then pagLoop env n (pagStep env st).1
       else (pagStep env st).1) := by
  conv_lhs => unfold pagLoop
  cases hps : pagStep env st with
  | mk st' b =>
    have hsnd := pagStep_snd env st
    rw [hps] at hsnd
    cases b
    · rw [← hsnd]; simp
    · rw [← hsnd]; simp

theorem pagLoop_extracted_le (env : ModalEnv) (fuel : Nat) (st : PagState) :
    (pagLoop env fuel st).extracted.length ≤ st.extracted.length + fuel := by
  induction fuel generalizing st with
  | zero => simp [pagLoop]
  | succ n ih =>
    rw [pagLoop_succ]
    have hex : (pagStep env st).1.extracted.length = st.extracted.length + 1 := by
      simp [pagStep_extracted]
    by_cases hn : env.nextOk st.cur
    · rw [if_pos hn]
      have := ih (pagStep env st).1
      omega
    · rw [if_neg hn]
      omega

theorem pagLoop_extracted_advances (env : ModalEnv) (fuel : Nat) (st : PagState) :
    (pagLoop env fuel st).extracted.length + st.advances ≤
      st.extracted.length + (pagLoop env fuel st).advances + 1 := by
  induction fuel generalizing st with
  | zero => simp only [pagLoop]; omega
  | succ n ih =>
    rw [pagLoop_succ]
    have hex : (pagStep env st).1.extracted.length = st.extracted.length + 1 := by
      simp [pagStep_extracted]
    have hadv := pagStep_advances env st
    by_cases hn : env.nextOk st.cur
    · rw [if_pos hn]
      rw [if_pos hn] at hadv
      have := ih (pagStep env st).1
      omega
    · rw [if_neg hn]
      rw [if_neg hn] at hadv
      omega

theorem scrollModalAttempts_le (H : Nat → Nat) (fuel : Nat)
    (last : Option Nat) (i : Nat) : scrollModalAttempts H fuel last i ≤ fuel := by
  induction fuel generalizing last i with
  | zero => simp [scrollModalAttempts]
  | succ n ih =>
    unfold scrollModalAttempts
    by_cases hc : H (2 * i + 1) = H (2 * i) ∨ some (H (2 * i + 1)) = last
    · simp only [hc, if_pos]; omega
    · simp only [hc, if_neg, not_false_iff]
      have := ih (some (H (2 * i + 1))) (i + 1)
      omega

/-- Claim C2: for every `max_pages` and every behaviour of the "next
page" control (including one that never reports disabled), the
paginator performs at most `max_pages` page iterations, each further
iteration additionally requires a successful advance (extractions never
exceed successful advances plus one), and the inner modal
scroll-convergence loop executes at most 15 attempts per page. -/
theorem c2_paginator_halts (env : ModalEnv) (max_pages : Nat) (H : Nat → Nat) :
    (scrape_reviews_from_modal env max_pages).extracted.length ≤ max_pages ∧
    (scrape_reviews_from_modal env max_pages).extracted.length ≤
      (scrape_reviews_from_modal env max_pages).advances + 1 ∧
    scrollModalAttempts H 15 none 0 ≤ 15 := by
  refine ⟨?_, ?_, scrollModalAttempts_le H 15 none 0⟩ <;>
    unfold scrape_reviews_from_modal <;>
    by_cases h : env.openOk && env.modalOk
  · simpa [h, initPagState] using pagLoop_extracted_le env max_pages initPagState
  · simp [h, initPagState]
  · have := pagLoop_extracted_advances env max_pages initPagState
    simp only [initPagState, List.length_nil] at this
    simpa [h, initPagState] using this
  · simp [h, initPagState]

-- Claim C3: the max_pages = 2 / three-page scenario.

/-- A review whose only distinguishing field is its title. -/
def mkReview (t : String) : Review :=
  { title := t, date := "", negative_feedback := "", positive_feedback := "" }

/-- The mock modal of the scenario: three pages, two reviews per page,
page 2 repeating exactly one title ("A") from page 1. -/
def c3pages : Nat → List Review
  | 1 => [mkReview "A", mkReview "B"]
  | 2 => [mkReview "A", mkReview "C"]
  | 3 => [mkReview "D", mkReview "E"]
  | _ => []

/-- Scenario environment: the modal opens, and the "next page" control
is enabled exactly while a further page exists (pages 1 and 2). -/
def c3env : ModalEnv :=
  { openOk := true, modalOk := true, pages := c3pages,
    nextOk := fun p => decide (p < 3) }

/-- Claim C3, counterexample: in the scenario (max_pages = 2, three
pages, two reviews per page, page 2 repeating one title of page 1) the
paginator does navigate to the third page.  The `for page in
range(1, max_pages + 1)` loop calls `click_next_page()` after
extracting the final in-budget page, and on page 2 the "next" control
is still enabled, so the click succeeds and the modal loads page 3:
the claim's "no navigation to the third page occurs" is false. -/
theorem c3_counterexample :
    (scrape_reviews_from_modal c3env 2).visited = [1, 2, 3] ∧
    3 ∈ (scrape_reviews_from_modal c3env 2).visited := by decide

/-- Claim C3 as amended: the scenario run returns exactly the 3 unique
reviews (titles "A", "B", "C" in page-then-appearance order) and never
extracts reviews from the third page (only pages 1 and 2 are parsed),
although a final successful next-click does navigate the modal to
page 3. -/
theorem c3_amended :
    (scrape_reviews_from_modal c3env 2).reviews.map Review.title = ["A", "B", "C"] ∧
    (scrape_reviews_from_modal c3env 2).reviews.length = 3 ∧
    (scrape_reviews_from_modal c3env 2).extracted = [1, 2] := by decide

-- Claim C4: buscar_dest_id (lines 83-160).

/-- Environment seen by `buscar_dest_id`: `fails` is `some msg` when
any step of the interaction sequence (navigation, cookie dismissal,
search-box handling, suggestion click, submit, URL read) raises;
`params` is the parsed query string of the post-search URL, as the
ordered key/value pairs `parse_qs` sees. -/
structure ResolveEnv where
  fails : Option String
  params : List (String × String)

/-- `params.get(key, [default])[0]` over the parsed query: the first
value recorded for `key`, if any. -/
def firstParam (params : List (String × String)) (key : String) : Option String :=
  (params.find? (fun p => p.1 == key)).map (fun p => p.2)

/-- The body of the `try:` block of `buscar_dest_id` (lines 88-156):
either an exception propagates (`Except.error`), or the function reads
`dest_id` (no default) and `dest_type` (defaulting to `"city"`,
line 149) from the URL and returns the pair when `dest_id` is present,
`none` (the Python `(None, None)`) otherwise. -/
def buscar_dest_id_body (env : ResolveEnv) :
    Except String (Option (String × String)) :=
  match env.fails with
  | some e => .error e
  | none =>
    let dest_id := firstParam env.params "dest_id"
    let dest_type := (firstParam env.params "dest_type").getD "city"
    match dest_id with
    | some i => .ok (some (i, dest_type))
    | none => .ok none

/-- `buscar_dest_id` (lines 83-160): the `except Exception` handler
(lines 158-160) converts every exception into the `(None, None)`
NotFound result. -/
def buscar_dest_id (env : ResolveEnv) : Option (String × String) :=
  match buscar_dest_id_body env with
  | .ok r => r
  | .error _ => none

/-- Claim C4: the Location Resolver never raises — every exception is
converted to NotFound; a post-search URL carrying
`dest_id=900&dest_type=city` yields `("900", "city")`; an absent
`dest_id` yields NotFound; a present `dest_id` with absent `dest_type`
defaults the kind to `"city"`. -/
theorem c4_resolver_error_handling :
    (∀ env e, buscar_dest_id_body env = .error e → buscar_dest_id env = none) ∧
    buscar_dest_id ⟨none, [("dest_id", "900"), ("dest_type", "city")]⟩ =
      some ("900", "city") ∧
    (∀ env, env.fails = none → firstParam env.params "dest_id" = none →
      buscar_dest_id env = none) ∧
    (∀ env i, env.fails = none → firstParam env.params "dest_id" = some i →
      firstParam env.params "dest_type" = none →
      buscar_dest_id env = some (i, "city")) := by
  refine ⟨?_, by decide, ?_, ?_⟩
  · intro env e he
    unfold buscar_dest_id
    rw [he]
  · intro env hf hid
    unfold buscar_dest_id buscar_dest_id_body
    rw [hf]
    simp [hid]
  · intro env i hf hid hty
    unfold buscar_dest_id buscar_dest_id_body
    rw [hf]
    simp [hid, hty]

/-- Witness for C4 at concrete inputs: an environment that raises
resolves to NotFound; a URL without `dest_id` resolves to NotFound; a
URL with `dest_id=7` and no `dest_type` resolves to `("7", "city")`. -/
theorem c4_resolver_error_handling_witness :
    buscar_dest_id ⟨some "boom", []⟩ = none ∧
    buscar_dest_id ⟨none, [("order", "price")]⟩ = none ∧
    buscar_dest_id ⟨none, [("dest_id", "7")]⟩ = some ("7", "city") :=
  ⟨c4_resolver_error_handling.1 ⟨some "boom", []⟩ "boom" rfl,
   c4_resolver_error_handling.2.2.1 ⟨none, [("order", "price")]⟩ rfl rfl,
   c4_resolver_error_handling.2.2.2 ⟨none, [("dest_id", "7")]⟩ "7" rfl rfl rfl⟩

-- Search Results Harvester (lines 169-258).

/-- The lazy-load scroll loop of `scrape_listings_from_search_page`
(lines 187-194): `H 0` is the initial `document.body.scrollHeight`;
iteration `j` scrolls to the bottom, pauses, re-measures (`H j`) and
breaks when the new measurement equals the previous one.  The source
loop is `while True:`, so the embedding spends fuel per iteration and
returns the number of iterations executed on termination, `none` if
the fuel is exhausted first. -/
def scrollSteps (H : Nat → Nat) : Nat → Nat → Option Nat
  | 0, _ => none
  | fuel + 1, i => if H (i + 1) = H i then some (i + 1) else scrollSteps H fuel (i + 1)

/-- One result card as the document query sees it (lines 202-253): for
each field, whether the element is present and its (stripped) text or
attribute value; `features` is the list of `ul > li > span` texts;
`raises` marks a card whose processing raises (lines 254-256). -/
structure Card where
  raises : Bool
  title_elem : Option String
  price1 : Option String
  price2 : Option String
  link1 : Option String
  link2 : Option String
  score : Option String
  beach : Option String
  distance : Option String
  features : List String
  policy : Option String
  deriving Repr, DecidableEq

/-- One entry of `properties_data` (lines 244-253). -/
structure ListingData where
  title : String
  price : String
  rating : String
  distance : String
  features : String
  payment_policy : String
  url : String
  beach_distance : String
  deriving Repr, DecidableEq

/-- The bullet character filtered out of feature spans (line 236). -/
def bulletChar : Char := Char.ofNat 0x2022

/-- Line 236: join the non-empty, bullet-free feature span texts. -/
def featuresText (l : List String) : String :=
  String.intercalate " " (l.filter (fun s => !(s == "") && !(s.contains bulletChar)))

/-- The guarded per-field extraction of one card (lines 204-253): each
missing element yields that field's sentinel instead of aborting. -/
def extractCardOk (c : Card) : ListingData :=
  { title := c.title_elem.getD "Nombre no disponible",
    price := (c.price1 <|> c.price2).getD "Precio no disponible",
    rating := c.score.getD "Sin puntuación",
    distance := c.distance.getD "Distancia no disponible",
    features := featuresText c.features,
    payment_policy := c.policy.getD "",
    url := (c.link1 <|> c.link2).getD "",
    beach_distance := c.beach.getD "Sin calificación" }

/-- The whole per-card body including the `except Exception: continue`
(lines 203-256): a raising card is skipped, any other card yields a
`ListingData`. -/
def extractCard (c : Card) : Option ListingData :=
  if c.raises then none else some (extractCardOk c)

/-- The `for listing in listings` loop (lines 202-256). -/
def processListings (cards : List Card) : List ListingData :=
  cards.filterMap extractCard

/-- Environment of `scrape_listings_from_search_page`: `waitOk` is
whether a property card became present within `ESPERA_INICIAL_PAGINA`
seconds (lines 176-183); `heights` the document height sequence read by
the scroll loop; `cards` the result cards of the settled document. -/
structure SearchEnv where
  waitOk : Bool
  heights : Nat → Nat
  cards : List Card

/-- `scrape_listings_from_search_page` (lines 169-258): on initial
timeout return `[]`; otherwise run the scroll loop to convergence
(`none` when the given fuel cannot witness convergence, mirroring the
unbounded `while True:`), then extract every card. -/
def scrape_listings_from_search_page (env : SearchEnv) (fuel : Nat) :
    Option (List ListingData) :=
  if env.waitOk then
    match scrollSteps env.heights fuel 0 with
    | some _ => some (processListings env.cards)
    | none => none
  else some []

/-- Claim C5: whenever no result card becomes present within the
bounded initial timeout, the Harvester returns the empty list instead
of raising. -/
theorem c5_timeout_returns_empty (env : SearchEnv) (fuel : Nat)
    (h : env.waitOk = false) :
    scrape_listings_from_search_page env fuel = some [] := by
  unfold scrape_listings_from_search_page
  rw [h]
  simp

/-- Witness for C5: a concrete environment whose initial wait times
out. -/
theorem c5_timeout_returns_empty_witness :
    scrape_listings_from_search_page ⟨false, fun _ => 0, []⟩ 0 = some [] :=
  c5_timeout_returns_empty ⟨false, fun _ => 0, []⟩ 0 rfl

-- Claim C6: convergence of the scroll-to-bottom loop.

theorem scrollSteps_sound (H : Nat → Nat) (fuel : Nat) :
    ∀ i n, scrollSteps H fuel i = some n →
      i < n ∧ H n = H (n - 1) ∧ ∀ m, i < m → m < n → H m ≠ H (m - 1) := by
  induction fuel with
  | zero => intro i n h; simp [scrollSteps] at h
  | succ f ih =>
    intro i n h
    unfold scrollSteps at h
    by_cases hc : H (i + 1) = H i
    · rw [if_pos hc] at h
      obtain rfl : i + 1 = n := by simpa using h
      refine ⟨Nat.lt_succ_self i, by simpa using hc, ?_⟩
      intro m h1 h2
      omega
    · rw [if_neg hc] at h
      obtain ⟨h1, h2, h3⟩ := ih (i + 1) n h
      refine ⟨by omega, h2, ?_⟩
      intro m hm1 hm2
      by_cases hm : m = i + 1
      · subst hm
        simpa using hc
      · exact h3 m (by omega) hm2

theorem scrollSteps_total (H : Nat → Nat) (C : Nat)
    (hmono : Monotone H) (hbound : ∀ n, H n ≤ C) :
    ∀ fuel i, C < H i + fuel → (scrollSteps H fuel i).isSome := by
  intro fuel
  induction fuel with
  | zero =>
    intro i hfc
    exact absurd (hbound i) (by omega)
  | succ f ih =>
    intro i hfc
    unfold scrollSteps
    by_cases hc : H (i + 1) = H i
    · rw [if_pos hc]; rfl
    · rw [if_neg hc]
      have hle : H i ≤ H (i + 1) := hmono (Nat.le_succ i)
      have : H i + 1 ≤ H (i + 1) := by omega
      exact ih (i + 1) (by omega)

/-- Claim C6: the Harvester's scroll-to-bottom loop halts exactly when
two consecutive document-height measurements first become equal; for
any monotonically non-decreasing height sequence bounded by a ceiling
`C`, fuel `C + 1` already witnesses termination (so the source's
unbounded loop terminates). -/
theorem c6_scroll_convergence (H : Nat → Nat) (C : Nat)
    (hmono : Monotone H) (hbound : ∀ n, H n ≤ C) :
    ∃ n, scrollSteps H (C + 1) 0 = some n ∧ 1 ≤ n ∧ H n = H (n - 1) ∧
      ∀ m, 1 ≤ m → m < n → H m ≠ H (m - 1) := by
  have htot := scrollSteps_total H C hmono hbound (C + 1) 0 (by have := hbound 0; omega)
  obtain ⟨n, hn⟩ := Option.isSome_iff_exists.mp htot
  obtain ⟨h1, h2, h3⟩ := scrollSteps_sound H (C + 1) 0 n hn
  exact ⟨n, hn, h1, h2, fun m hm1 hm2 => h3 m hm1 hm2⟩

/-- Witness for C6: the concrete height sequence `min i 2` (monotone,
bounded by 2) makes the loop halt. -/
theorem c6_scroll_convergence_witness :
    ∃ n, scrollSteps (fun i => min i 2) 3 0 = some n ∧ 1 ≤ n ∧
      (fun i => min i 2) n = (fun i => min i 2) (n - 1) ∧
      ∀ m, 1 ≤ m → m < n → (fun i => min i 2) m ≠ (fun i => min i 2) (m - 1) :=
  c6_scroll_convergence (fun i => min i 2) 2
    (fun {_a _b} h => min_le_min h (le_refl 2))
    (fun n => min_le_right n 2)

-- Detail Enricher (lines 261-299).

/-- The record `detail_data` built by `scrape_detail_page_data`. -/
structure DetailData where
  description : String
  location : String
  services : List String
  deriving Repr, DecidableEq

/-- The detail document once the description wait succeeded: the
description element's text if found by the soup, the map pin's
`data-atlas-latlng` attribute if the pin carries one (a missing
attribute is the Python `None`, an empty attribute is falsy — both
leave the default), and the span texts of the most-popular-facilities
wrapper if that wrapper exists. -/
structure DetailDoc where
  desc : Option String
  latlng : Option String
  services_spans : Option (List String)

/-- `scrape_detail_page_data` (lines 261-299): `env = none` models a
timeout of the bounded wait for the description element (the element
never appears), in which case the pre-initialised sentinel record of
lines 265-269 is returned unchanged; otherwise each present piece of
the document overrides its default. -/
def scrape_detail_page_data (env : Option DetailDoc) : DetailData :=
  let base : DetailData :=
    { description := "Descripción no disponible",
      location := "Ubicación (lat,lng) no disponible",
      services := [] }
  match env with
  | none => base
  | some doc =>
    let d1 := match doc.desc with
      | some t => { base with description := t }
      | none => base
    let d2 := match doc.latlng with
      | some s => if s = "" then d1 else { d1 with location := s }
      | none => d1
    match doc.services_spans with
    | some l => { d2 with services := l.filter (fun s => !(s == "")) }
    | none => d2

/-- Claim C7: on every detail page whose description element never
appears within the bounded wait, the Detail Enricher returns (without
raising) the record with all three sentinel defaults: description
unavailable, location unavailable, and the empty services list. -/
theorem c7_detail_sentinels :
    scrape_detail_page_data none =
      { description := "Descripción no disponible",
        location := "Ubicación (lat,lng) no disponible",
        services := [] } := rfl

-- Claim C8: per-field guards and per-card skip in the Harvester.

/-- Claim C8: a non-raising card always yields an entry; a missing
price element (both price selectors absent) yields the price
sentinel; a raising card is skipped while the surrounding cards are
still harvested; hence three cards, the second lacking its price
element, yield exactly three entries with the incomplete one carrying
the price sentinel. -/
theorem c8_guarded_extraction :
    (∀ c : Card, c.raises = false → extractCard c = some (extractCardOk c)) ∧
    (∀ c : Card, c.price1 = none → c.price2 = none →
      (extractCardOk c).price = "Precio no disponible") ∧
    (∀ (pre post : List Card) (bad : Card), bad.raises = true →
      processListings (pre ++ bad :: post) =
        processListings pre ++ processListings post) ∧
    (∀ c1 c2 c3 : Card, c1.raises = false → c2.raises = false →
      c3.raises = false → c2.price1 = none → c2.price2 = none →
      processListings [c1, c2, c3] =
        [extractCardOk c1, extractCardOk c2, extractCardOk c3] ∧
      (processListings [c1, c2, c3]).length = 3 ∧
      (extractCardOk c2).price = "Precio no disponible") := by
  refine ⟨?_, ?_, ?_, ?_⟩
  · intro c h
    simp [extractCard, h]
  · intro c h1 h2
    simp [extractCardOk, h1, h2, Option.orElse]
  · intro pre post bad h
    simp [processListings, List.filterMap_append, extractCard, h]
  · intro c1 c2 c3 h1 h2 h3 hp1 hp2
    refine ⟨?_, ?_, ?_⟩
    · simp [processListings, extractCard, h1, h2, h3]
    · simp [processListings, extractCard, h1, h2, h3]
    · simp [extractCardOk, hp1, hp2, Option.orElse]

/-- A fully populated mock card. -/
def cardFull : Card :=
  { raises := false, title_elem := some "Hotel Mar", price1 := some "USD 50",
    price2 := none, link1 := some "https://example.org/h1", link2 := none,
    score := some "8.5", beach := some "100 m de la playa",
    distance := some "1 km", features := ["Wifi", "Piscina"],
    policy := some "Cancelación gratis" }

/-- A mock card whose price element is missing. -/
def cardNoPrice : Card :=
  { cardFull with title_elem := some "Hostal Sol", price1 := none,
                  price2 := none, link1 := some "https://example.org/h2" }

/-- Witness for C8: the three-card page with one card missing its
price yields three entries, the incomplete one carrying the price
sentinel. -/
theorem c8_guarded_extraction_witness :
    processListings [cardFull, cardNoPrice, cardFull] =
      [extractCardOk cardFull, extractCardOk cardNoPrice, extractCardOk cardFull] ∧
    (processListings [cardFull, cardNoPrice, cardFull]).length = 3 ∧
    (extractCardOk cardNoPrice).price = "Precio no disponible" :=
  c8_guarded_extraction.2.2.2 cardFull cardNoPrice cardFull rfl rfl rfl rfl rfl

-- Run Orchestrator (lines 428-527): per-listing enrichment gate and
-- per-destination record assembly.

/-- A listing as it stands after the per-listing loop of `main`: the
harvested summary plus the detail fields and reviews added in place by
`listing.update(detail_data)` and `listing["reviews"] = reviews`
(`none` = the key was never added). -/
structure EnrichedListing where
  listing : ListingData
  detail : Option DetailData
  reviews : Option (List Review)
  deriving Repr, DecidableEq

/-- Python's `str.startswith`, by character list. -/
def strStartsWith (s p : String) : Bool := p.data.isPrefixOf s.data

/-- The eligibility test of line 478: the listing is skipped when
`not listing['url'] or not listing['url'].startswith("http")`. -/
def isEligibleUrl (u : String) : Bool :=
  !(u == "") && strStartsWith u "http"

/-- The spec's eligibility wording, for comparison with the code's
test: a well-formed absolute URL carries an explicit http or https
scheme followed by a non-empty remainder. -/
def wellFormedAbsoluteUrl (u : String) : Bool :=
  (strStartsWith u "http://" && decide (7 < u.length)) ||
    (strStartsWith u "https://" && decide (8 < u.length))

/-- One pass of the per-listing loop body (lines 476-495): an
ineligible URL is skipped (the listing keeps no detail and no reviews
but stays in `all_properties_data`); an eligible URL gets the detail
and review scrape, whose own failure (`except Exception`) is caught
and leaves the listing unenriched as well.  `enr` is the outcome the
page driver produces for this listing: `some (d, rs)` on success,
`none` when the per-listing `try` body raises. -/
def processListing (enr : Option (DetailData × List Review))
    (l : ListingData) : EnrichedListing :=
  if isEligibleUrl l.url then
    match enr with
    | some (d, rs) => { listing := l, detail := some d, reviews := some rs }
    | none => { listing := l, detail := none, reviews := none }
  else
    { listing := l, detail := none, reviews := none }

/-- The whole `for i, listing in enumerate(all_properties_data, 1)`
loop: `enrs i` is the page-driver outcome for the listing at index
`i`. -/
def processDestination (enrs : Nat → Option (DetailData × List Review)) :
    Nat → List ListingData → List EnrichedListing
  | _, [] => []
  | i, l :: ls => processListing (enrs i) l :: processDestination enrs (i + 1) ls

/-- Claim C9, counterexample: the code's gate is only a prefix test.
The listing whose `url` is the bare string `"http"` is not a
well-formed absolute URL, yet `processListing` attaches the detail and
review data to it — enrichment is attempted although the URL is not
well-formed, refuting the claimed "if and only if". -/
theorem c9_counterexample :
    wellFormedAbsoluteUrl "http" = false ∧
    (processListing
      (some ({ description := "d", location := "l", services := [] }, []))
      { title := "X", price := "", rating := "", distance := "",
        features := "", payment_policy := "", url := "http",
        beach_distance := "" }).reviews = some [] := by
  constructor
  · decide
  · decide

/-- Claim C9 as amended: the Orchestrator attempts detail enrichment
and review collection if and only if the listing's `detail_url` is
non-empty and starts with `"http"` (the code's eligibility test, a
weaker condition than well-formed-absolute-URL); every listing,
eligible or not, is retained in the destination's output in order (so
also in the property count), and an ineligible listing is left with no
description/location/services and no reviews. -/
theorem c9_amended :
    (∀ enrs i ls, (processDestination enrs i ls).map EnrichedListing.listing = ls) ∧
    (∀ enr l, isEligibleUrl l.url = false →
      processListing enr l = { listing := l, detail := none, reviews := none }) ∧
    (∀ l d rs, isEligibleUrl l.url = true →
      processListing (some (d, rs)) l =
        { listing := l, detail := some d, reviews := some rs }) ∧
    (∀ enr l, ((processListing enr l).detail ≠ none ∨
        (processListing enr l).reviews ≠ none) → isEligibleUrl l.url = true) := by
  refine ⟨?_, ?_, ?_, ?_⟩
  · intro enrs i ls
    induction ls generalizing i with
    | nil => rfl
    | cons l ls ih =>
      simp only [processDestination, List.map_cons, ih]
      congr 1
      unfold processListing
      by_cases h : isEligibleUrl l.url
      · rw [if_pos h]
        cases enrs i with
        | none => rfl
        | some p => rfl
      · rw [if_neg h]
  · intro enr l h
    simp [processListing, h]
  · intro l d rs h
    simp [processListing, h]
  · intro enr l h
    by_cases he : isEligibleUrl l.url
    · exact he
    · exfalso
      rcases h with h | h <;> simp [processListing, he] at h

/-- Witness for C9 (amended): a two-listing destination, the first
with an eligible URL and a successful scrape, the second with an
ineligible relative URL. -/
theorem c9_amended_witness :
    ((processDestination
        (fun _ => some ({ description := "d", location := "l", services := [] }, []))
        1
        [{ title := "A", price := "", rating := "", distance := "",
           features := "", payment_policy := "", url := "https://example.org/a",
           beach_distance := "" },
         { title := "B", price := "", rating := "", distance := "",
           features := "", payment_policy := "", url := "/relative",
           beach_distance := "" }]).map EnrichedListing.listing =
      [{ title := "A", price := "", rating := "", distance := "",
         features := "", payment_policy := "", url := "https://example.org/a",
         beach_distance := "" },
       { title := "B", price := "", rating := "", distance := "",
         features := "", payment_policy := "", url := "/relative",
         beach_distance := "" }]) ∧
    processListing none
      { title := "B", price := "", rating := "", distance := "",
        features := "", payment_policy := "", url := "/relative",
        beach_distance := "" } =
      { listing := { title := "B", price := "", rating := "", distance := "",
                     features := "", payment_policy := "", url := "/relative",
                     beach_distance := "" },
        detail := none, reviews := none } :=
  ⟨c9_amended.1 _ 1 _, c9_amended.2.1 none _ (by decide)⟩

-- Claim C10: the persisted per-destination record.

/-- The `resultado` dict assembled at lines 498-507: destination name,
resolved id and kind, the date window, the scrape timestamp, the count
`len(all_properties_data)` and the listing list itself. -/
structure DestinationRecord where
  destino : String
  dest_id : String
  dest_type : String
  fecha_checkin : String
  fecha_checkout : String
  fecha_scraping : String
  total_alojamientos : Nat
  alojamientos : List EnrichedListing
  deriving Repr

/-- Lines 498-507: build the per-destination record from the processed
listing list, storing its length as `total_alojamientos`. -/
def mkResultado (ciudad did dtype checkin checkout ts : String)
    (props : List EnrichedListing) : DestinationRecord :=
  { destino := ciudad, dest_id := did, dest_type := dtype,
    fecha_checkin := checkin, fecha_checkout := checkout,
    fecha_scraping := ts, total_alojamientos := props.length,
    alojamientos := props }

/-- Claim C10: in every persisted per-destination record, the
total-accommodations count equals the length of the accommodations
list stored in the same record. -/
theorem c10_count_matches_list (ciudad did dtype checkin checkout ts : String)
    (props : List EnrichedListing) :
    (mkResultado ciudad did dtype checkin checkout ts props).total_alojamientos =
      (mkResultado ciudad did dtype checkin checkout ts props).alojamientos.length := rfl
